import Mathlib

/-!
Verification of the coordination core of the Facebook Marketplace auto-reply
bot (`src/messenger_bot_v4.py`, with `src/messenger_bot_v3.py` as the earlier
variant of the same loop).  The Python functions the claims are about are
shallowly embedded below: pure string/record manipulation becomes Lean
functions, the sqlite tables become explicit lists, the asyncio futures and
Telegram callback handlers become an explicit event-step function, and the
external collaborators (Playwright sender, proxy AI, wall clocks) become
explicit inputs.
-/

namespace MarketplaceBot

/-! ## Python string helpers -/

/-- The ASCII whitespace characters stripped by Python's `str.strip()`. -/
def isPySpace (c : Char) : Bool :=
  c = ' ' || c = '\t' || c = '\n' || c = '\r' || c = '\x0b' || c = '\x0c'

/-- Python `s.strip()`: drop leading and trailing whitespace. -/
def pyStrip (s : String) : String :=
  String.mk (((s.toList.dropWhile isPySpace).reverse.dropWhile isPySpace).reverse)

/-- Python `x or d` for an optional string `x` (`None` and `""` are falsy). -/
def pyOr : Option String → String → String
  | none, d => d
  | some s, d => if s = "" then d else s

/-- Python `x or y` where both sides are optional strings
    (used for `thread_href or pending_threads[tk].get("href")`). -/
def pyOrOpt : Option String → Option String → Option String
  | none, old => old
  | some s, old => if s = "" then old else some s

/-! ## Python dicts as association lists -/

/-- Lookup in a Python dict modelled as an association list. -/
def lookupA {κ α : Type} [DecidableEq κ] : List (κ × α) → κ → Option α
  | [], _ => none
  | (k2, v) :: rest, k => if k2 = k then some v else lookupA rest k

/-- `d[k] = v` on a Python dict modelled as an association list. -/
def setAssoc {κ α : Type} [DecidableEq κ] (m : List (κ × α)) (k : κ) (v : α) :
    List (κ × α) :=
  (k, v) :: m.filter (fun p => !(decide (p.1 = k)))

theorem lookupA_setAssoc_self {κ α : Type} [DecidableEq κ]
    (m : List (κ × α)) (k : κ) (v : α) :
    lookupA (setAssoc m k v) k = some v := by
  simp [lookupA, setAssoc]

/-! ## State Store (`db_init`, `db_insert_message`, `db_upsert_thread_state`) -/

/-- Message role as stored in the `messages` table. -/
inductive Role
  | buyer
  | seller
deriving DecidableEq, Repr

def roleStr : Role → String
  | .buyer => "buyer"
  | .seller => "seller"

/-- `_hash_msg(thread_key, role, text)`: the code stores the first 32 hex
    chars of `sha256(f"{thread_key}|{role}|{text}")`.  We model the digest by
    its preimage string (a collision-free abstraction of sha256): rows agree
    on the modelled hash exactly when they agree on the concatenation. -/
def hashMsg (tk : String) (role : Role) (text : String) : String :=
  tk ++ "|" ++ roleStr role ++ "|" ++ text

/-- One row of the `messages` table
    (`id` is the position in the list, mirroring AUTOINCREMENT order). -/
structure MsgRow where
  thread_key : String
  msg_hash : String
  role : Role
  text : String
  created_at : Nat
deriving DecidableEq, Repr

/-- The `messages` table. -/
structure DB where
  rows : List MsgRow
deriving DecidableEq, Repr

/-- The `idx_messages_unique` uniqueness probe on `(thread_key, msg_hash)`. -/
def hashExists (db : DB) (tk mh : String) : Bool :=
  db.rows.any (fun r => r.thread_key == tk && r.msg_hash == mh)

/-- `db_insert_message(thread_key, role, text)`: strip the text, reject empty,
    then `INSERT OR IGNORE` against the unique `(thread_key, msg_hash)` index;
    returns the new table and whether a row was actually inserted
    (`cur.rowcount == 1`). -/
def db_insert_message (db : DB) (tk : String) (role : Role) (text : String)
    (now : Nat) : DB × Bool :=
  let t := pyStrip text
  if t = "" then (db, false)
  else
    let mh := hashMsg tk role t
    if hashExists db tk mh then (db, false)
    else (⟨db.rows ++ [⟨tk, mh, role, t, now⟩]⟩, true)

/-- Number of stored rows for one `(thread_key, role, text)` key
    (`text` already stripped). -/
def countMsg (db : DB) (tk : String) (role : Role) (t : String) : Nat :=
  (db.rows.filter
    (fun r => r.thread_key == tk && r.msg_hash == hashMsg tk role t)).length

/-- One row of the `thread_state` table. -/
structure ThreadStateRow where
  buyer_name : String
  thread_href : Option String
  last_seen_bottom : Option String
  last_seen_incoming : Option String
  last_sent_by_us : Option String
  updated_at : Nat
deriving DecidableEq, Repr

/-- `db_upsert_thread_state`: insert-or-update keyed on `thread_key`; on
    conflict every field is last-write-wins except `thread_href`, which is
    `COALESCE(excluded.thread_href, thread_state.thread_href)` (a new NULL
    never overwrites a known href). -/
def db_upsert_thread_state (tbl : List (String × ThreadStateRow)) (tk : String)
    (buyer : String) (href : Option String)
    (lsb lsi lsent : Option String) (now : Nat) :
    List (String × ThreadStateRow) :=
  match lookupA tbl tk with
  | none => setAssoc tbl tk ⟨buyer, href, lsb, lsi, lsent, now⟩
  | some old =>
      let mergedHref := match href with
        | some h => some h
        | none => old.thread_href
      setAssoc tbl tk ⟨buyer, mergedHref, lsb, lsi, lsent, now⟩

/-! ## Decision Engine Adapter (`analyze_message`) -/

/-- The JSON object the proxy model is asked to return (typed view of the
    dict `analyze_message` hands back; absent / `None` values are `none`). -/
structure Analysis where
  category : Option String
  requires_approval : Option Bool
  intent_summary : Option String
  reply_if_accepted : Option String
  reply_if_declined : Option String
  meetup_confirmed : Option Bool
  meetup_time_text : Option String
  notes_for_owner : Option String
deriving DecidableEq, Repr

/-- The fixed dict `analyze_message` returns from its `except` branch. -/
def fallbackAnalysis : Analysis where
  category := some "other"
  requires_approval := some true
  intent_summary := some "AI Error"
  reply_if_accepted := none
  reply_if_declined := none
  meetup_confirmed := some false
  meetup_time_text := some ""
  notes_for_owner := some "AI error occurred."

/-- `analyze_message`: run `_call_proxy_chat` (whose outcome — a parsed dict
    or any raised exception — is the `proxyResult` input) and catch every
    failure, substituting the fixed fallback dict. -/
def analyze_message (proxyResult : Except String Analysis) : Analysis :=
  match proxyResult with
  | .ok a => a
  | .error _ => fallbackAnalysis

/-! ## Flush-time decision extraction
(`flush_debounced_threads`, v4 lines 908–932) -/

/-- The fallback accept reply built in `flush_debounced_threads` when the
    model returned no `reply_if_accepted`. -/
def fallbackYesReply (location avail_note : String) : String :=
  "Hi! Yes, it’s available. Pickup at " ++ location ++
    ". My availability is " ++ avail_note ++ ". What time works for you?"

/-- The values `flush_debounced_threads` works with after reading the
    analysis dict. -/
structure FlushDecision where
  category : String
  requires_approval : Bool
  yes_reply : String
  no_reply : String
  intent : String
  meetup_confirmed : Bool
  meetup_time_text : String
  notes_for_owner : String
deriving DecidableEq, Repr

/-- The field extraction and safety override of `flush_debounced_threads`
    (v4 lines 908–932): read each field with its Python default, force
    `requires_approval` for the two meet-up categories, and substitute the
    fallback replies for empty ones. -/
def extractDecision (a : Analysis) (location avail_note : String) :
    FlushDecision :=
  let category := pyStrip (pyOr a.category "other")
  let requires_approval0 := a.requires_approval.getD false
  let yes0 := pyOr a.reply_if_accepted ""
  let no0 := pyOr a.reply_if_declined ""
  let intent := a.intent_summary.getD category
  let meetup_confirmed := a.meetup_confirmed.getD false
  let meetup_time_text := pyStrip (pyOr a.meetup_time_text "")
  let notes_for_owner := pyStrip (pyOr a.notes_for_owner "")
  let requires_approval :=
    if category = "meetup_scheduling" ∨ category = "meetup_confirmation"
    then true else requires_approval0
  let yes_reply :=
    if yes0 = "" then fallbackYesReply location avail_note else yes0
  let no_reply := if no0 = "" then "Sorry, I can’t do that." else no0
  ⟨category, requires_approval, yes_reply, no_reply, intent,
    meetup_confirmed, meetup_time_text, notes_for_owner⟩

/-! ## Approval Coordinator
(`ask_human_approval`, `handle_approval`, `handle_admin_text`) -/

/-- Terminal outcome of one approval request (the spec's
    `APPROVED / DECLINED / CUSTOM_QUEUED / EXPIRED`). -/
inductive Outcome
  | approved
  | declined
  | customQueued
  | expired
deriving DecidableEq, Repr

/-- Lifecycle of one approval request.  `resolvedReq o` stands for the state
    after its future completed and `ask_human_approval`'s `finally` block
    popped `pending_approvals[request_id]` and `approval_meta[request_id]`. -/
inductive ReqState
  | pendingReq
  | resolvedReq (o : Outcome)
deriving DecidableEq, Repr

/-- The coordinator state visible to the Telegram handlers, for one request
    and one admin chat: the request's lifecycle, whether
    `custom_reply_wait` holds this chat (waiting for the custom text), and
    the `send_custom` actions put on `send_queue`. -/
structure ApprovalFlow where
  reqState : ReqState
  custom_wait : Bool
  send_queue : List String
deriving DecidableEq, Repr

/-- Asynchronous events that can reach the coordinator for this request:
    the three inline-keyboard taps, an admin free-text message, and the
    `asyncio.wait_for` timeout firing. -/
inductive UIEvent
  | approveTap
  | declineTap
  | customTap
  | adminText (txt : String)
  | timeoutFire
deriving DecidableEq, Repr

/-- One event against the coordinator, as the handlers implement it.
    `approve`/`decline` taps resolve the future only when the request is
    still pending (`if fut and not fut.done()`); after resolution the meta
    is gone and the handler only edits the Telegram message.  A `custom`
    tap on a pending request records the chat in `custom_reply_wait`.  An
    admin text is ignored unless the chat is in `custom_reply_wait`; then,
    if the request already resolved it only pops the wait entry
    ("Custom reply expired"), if the stripped text is empty it asks again,
    and otherwise it enqueues the `send_custom` action, resolves the future
    and pops the wait entry.  The timeout resolves a still-pending request
    toward `False`. -/
def stepEvent (e : UIEvent) (s : ApprovalFlow) : ApprovalFlow :=
  match e with
  | .approveTap =>
      match s.reqState with
      | .pendingReq => { s with reqState := .resolvedReq .approved }
      | .resolvedReq _ => s
  | .declineTap =>
      match s.reqState with
      | .pendingReq => { s with reqState := .resolvedReq .declined }
      | .resolvedReq _ => s
  | .customTap =>
      match s.reqState with
      | .pendingReq => { s with custom_wait := true }
      | .resolvedReq _ => s
  | .adminText txt =>
      if s.custom_wait then
        match s.reqState with
        | .resolvedReq _ => { s with custom_wait := false }
        | .pendingReq =>
            let t := pyStrip txt
            if t = "" then s
            else
              { reqState := .resolvedReq .customQueued
                custom_wait := false
                send_queue := s.send_queue ++ [t] }
      else s
  | .timeoutFire =>
      match s.reqState with
      | .pendingReq => { s with reqState := .resolvedReq .expired }
      | .resolvedReq _ => s

/-- A sequence of asynchronous events, applied in arrival order. -/
def stepEvents (evs : List UIEvent) (s : ApprovalFlow) : ApprovalFlow :=
  evs.foldl (fun s e => stepEvent e s) s

/-- The `timeout=3600` handed to `asyncio.wait_for` in `ask_human_approval`
    (seconds of wall-clock time). -/
def approval_timeout_seconds : Nat := 3600

/-- The boolean `ask_human_approval` returns for each terminal outcome:
    an approve tap does `fut.set_result(True)`, a decline tap
    `fut.set_result(False)`, the custom path (`handle_admin_text`) also
    does `fut.set_result(True)`, and the timeout path returns `False` from
    the `except` clause. -/
def ask_human_approval_result : Outcome → Bool
  | .approved => true
  | .declined => false
  | .customQueued => true
  | .expired => false

/-- The `final_reply` `flush_debounced_threads` computes from the boolean
    (`yes_reply if user_approved else no_reply`). -/
def flush_final_reply (yes no : String) (o : Outcome) : String :=
  if ask_human_approval_result o then yes else no

/-- Every text dispatched to the buyer for one approval-gated flush whose
    request resolved with outcome `o`: the flush's own send of
    `final_reply` (skipped when falsy, `if not final_reply: return`), plus
    the queued `send_custom` texts executed by `drain_send_queue`. -/
def flushSentTexts (yes no : String) (o : Outcome) (queued : List String) :
    List String :=
  (if flush_final_reply yes no o = "" then []
   else [flush_final_reply yes no o]) ++ queued

/-! ## Request identifiers (`ask_human_approval` lines 421–423) -/

/-- State of one `asyncio` future. -/
inductive FutState
  | fpending
  | fresolved (b : Bool)
deriving DecidableEq, Repr

/-- `pending_approvals` together with the futures it points at: `futures`
    lists every created future in creation order, and `table` maps a
    request id to the index of the future most recently registered under
    it (a Python dict assignment overwrites). -/
structure Registry where
  futures : List FutState
  table : List (Nat × Nat)
deriving DecidableEq, Repr

/-- `request_id = str(int(asyncio.get_running_loop().time() * 1000))`: the
    event-loop clock truncated to whole milliseconds.  The clock reading is
    modelled in whole microseconds; `str` of distinct naturals is distinct,
    so ids stay as naturals. -/
def request_id_ms (tMicros : Nat) : Nat := tMicros / 1000

/-- The registration step of `ask_human_approval`: create a fresh pending
    future and bind `pending_approvals[request_id]` to it, overwriting any
    previous binding of the same id.  Returns the registry, the request id
    and the new future's index. -/
def ask_register (r : Registry) (tMicros : Nat) : Registry × Nat × Nat :=
  let rid := request_id_ms tMicros
  let idx := r.futures.length
  (⟨r.futures ++ [.fpending], setAssoc r.table rid idx⟩, rid, idx)

/-- An approve/decline tap in `handle_approval`, at the registry level:
    look the id up in `pending_approvals` and set the result on the future
    found there, only if it is not yet done. -/
def handle_approval_tap (r : Registry) (rid : Nat) (approve : Bool) :
    Registry :=
  match lookupA r.table rid with
  | none => r
  | some i =>
      match r.futures[i]? with
      | some .fpending => { r with futures := r.futures.set i (.fresolved approve) }
      | _ => r

/-! ## Debounce Scheduler (`pending_threads` handling in `run_bot`) -/

/-- One entry of `pending_threads`. -/
structure PendingWindow where
  since_ts : Nat
  last_update : Nat
  href : Option String
  buyer_name : String
deriving DecidableEq, Repr

/-- The debounce update in `run_bot` (v4 lines 1144–1154): open a window
    with `since_ts = ts_now` if none exists, else refresh `last_update` and
    keep `href`/`buyer_name` unless the new values are truthy;
    `since_ts` is not touched by a refresh. -/
def notify (pending : List (String × PendingWindow)) (tk : String)
    (href : Option String) (buyer : String) (loopNow tsNow : Nat) :
    List (String × PendingWindow) :=
  match lookupA pending tk with
  | none => setAssoc pending tk ⟨tsNow, loopNow, href, buyer⟩
  | some w =>
      setAssoc pending tk
        { w with
          last_update := loopNow
          href := pyOrOpt href w.href
          buyer_name := if buyer = "" then w.buyer_name else buyer }

/-- The inputs of one further `Notify` on the same thread: new href, buyer
    name and the two clock readings. -/
structure NotifyArgs where
  href : Option String
  buyer : String
  loopNow : Nat
  tsNow : Nat
deriving DecidableEq, Repr

/-- A sequence of further `Notify` calls on one thread, applied in order. -/
def notifyMany (pending : List (String × PendingWindow)) (tk : String) :
    List NotifyArgs → List (String × PendingWindow)
  | [] => pending
  | u :: rest =>
      notifyMany (notify pending tk u.href u.buyer u.loopNow u.tsNow) tk rest

/-! ## Reply Dispatcher and driver tick -/

/-- Which party the Observer attributes the bottom-most bubble to. -/
inductive Side
  | incoming
  | outgoing
  | unknown
deriving DecidableEq, Repr

/-- Everything the loop mutates: the two sqlite tables, the three volatile
    caches, and the debounce windows. -/
structure BotState where
  db : DB
  threadTable : List (String × ThreadStateRow)
  last_sent_by_us : List (String × String)
  last_seen_bottom : List (String × String)
  last_seen_incoming : List (String × String)
  pending : List (String × PendingWindow)
deriving DecidableEq, Repr

/-- The send-and-record step shared by `flush_debounced_threads`
    (v4 lines 974–1008) and `drain_send_queue` (v4 lines 832–858): attempt
    the send (the Sender's boolean is the `sendOk` input); only on success
    insert the seller row, update `last_sent_by_us` and `last_seen_bottom`,
    and upsert `thread_state` from the refreshed caches.  On failure the
    code only prints and leaves every structure untouched. -/
def dispatchReply (st : BotState) (tk : String) (href : Option String)
    (buyer : String) (text : String) (sendOk : Bool) (now : Nat) :
    BotState × Bool :=
  if sendOk then
    let db1 := (db_insert_message st.db tk .seller text now).1
    let lsent := setAssoc st.last_sent_by_us tk text
    let lbot := setAssoc st.last_seen_bottom tk text
    let tt := db_upsert_thread_state st.threadTable tk buyer href
        (lookupA lbot tk) (lookupA st.last_seen_incoming tk)
        (lookupA lsent tk) now
    ({ st with db := db1, threadTable := tt,
               last_sent_by_us := lsent, last_seen_bottom := lbot }, true)
  else (st, false)

/-- Whether the unconditional bottom-message insert of the tick is a no-op
    on the `messages` table: always for an `unknown` side (no insert is
    attempted), otherwise when the stripped text is empty or the row for
    the side's role is already stored. -/
def insertTakesNoEffect (db : DB) (tk : String) (side : Side)
    (bottom : String) : Bool :=
  match side with
  | .unknown => true
  | .incoming =>
      pyStrip bottom == "" ||
        hashExists db tk (hashMsg tk .buyer (pyStrip bottom))
  | .outgoing =>
      pyStrip bottom == "" ||
        hashExists db tk (hashMsg tk .seller (pyStrip bottom))

/-- Processing of one scanned sidebar thread in `run_bot`
    (v4 lines 1080–1154), from the point where thread key, buyer name and
    the observed bottom message are known.  `obs = none` covers every early
    `continue` (no scroller, not at bottom, no bottom text).  In order: the
    unconditional `thread_state` upsert; the bottom-message insert with the
    observed side's role; the raw jitter lock on `last_seen_bottom`; the
    cache update and second upsert; the incoming-only gate; the
    incoming-specific lock on `last_seen_incoming`; and the debounce
    `notify`. -/
def processObservation (st : BotState) (tk : String) (href : Option String)
    (buyer : String) (obs : Option (String × Side)) (loopNow tsNow now : Nat) :
    BotState :=
  let st :=
    { st with
      threadTable := db_upsert_thread_state st.threadTable tk buyer href
        (lookupA st.last_seen_bottom tk) (lookupA st.last_seen_incoming tk)
        (lookupA st.last_sent_by_us tk) now }
  match obs with
  | none => st
  | some (bottom, side) =>
    if bottom = "" then st
    else
      let db1 :=
        match side with
        | .incoming => (db_insert_message st.db tk .buyer bottom now).1
        | .outgoing => (db_insert_message st.db tk .seller bottom now).1
        | .unknown => st.db
      let st := { st with db := db1 }
      if lookupA st.last_seen_bottom tk = some bottom then st
      else
        let st :=
          { st with last_seen_bottom := setAssoc st.last_seen_bottom tk bottom }
        let st :=
          { st with
            threadTable := db_upsert_thread_state st.threadTable tk buyer href
              (lookupA st.last_seen_bottom tk)
              (lookupA st.last_seen_incoming tk)
              (lookupA st.last_sent_by_us tk) now }
        if side ≠ Side.incoming then st
        else if lookupA st.last_seen_incoming tk = some bottom then st
        else
          let st :=
            { st with
              last_seen_incoming := setAssoc st.last_seen_incoming tk bottom }
          { st with pending := notify st.pending tk href buyer loopNow tsNow }

/-- The state of a fresh run before anything was observed. -/
def emptyBot : BotState := ⟨⟨[]⟩, [], [], [], [], []⟩

/-! ## Helper lemmas -/

theorem extract_no_reply_ne_empty (a : Analysis) (loc av : String) :
    (extractDecision a loc av).no_reply ≠ "" := by
  by_cases h : pyOr a.reply_if_declined "" = ""
  · have hval : (extractDecision a loc av).no_reply = "Sorry, I can’t do that." := by
      simp [extractDecision, h]
    rw [hval]; decide
  · have hval : (extractDecision a loc av).no_reply = pyOr a.reply_if_declined "" := by
      simp [extractDecision, h]
    rw [hval]; exact h

theorem extract_category_eq (a : Analysis) (loc av : String) :
    (extractDecision a loc av).category = pyStrip (pyOr a.category "other") := by
  simp [extractDecision]

/-! ## Claim theorems -/

/-- C7: the Decision Engine Adapter (`analyze_message`) never propagates an
    underlying failure: it is a total function of the proxy call's outcome,
    and on any error it returns the fixed fallback dict, whose
    `requires_approval` field is `true` (and stays `true` through the
    flush's field extraction), with the generic intent summary "AI Error". -/
theorem analyze_message_error_fallback (e : String) (loc av : String) :
    analyze_message (Except.error e) = fallbackAnalysis ∧
    (analyze_message (Except.error e)).requires_approval = some true ∧
    (extractDecision (analyze_message (Except.error e)) loc av).requires_approval
      = true ∧
    (extractDecision (analyze_message (Except.error e)) loc av).intent
      = "AI Error" := by
  refine ⟨rfl, rfl, ?_, ?_⟩ <;> simp [analyze_message, extractDecision,
    fallbackAnalysis, pyOr, pyStrip]

/-- C6: a failed send makes `Dispatch` return `false` with every store
    structure untouched (no seller row, no cache update, no thread-state
    upsert); on success it returns `true` and the `last_seen_bottom` /
    `last_sent_by_us` entries for the thread are set to the sent text. -/
theorem dispatch_failure_no_mutation (st : BotState) (tk : String)
    (href : Option String) (buyer text : String) (now : Nat) :
    dispatchReply st tk href buyer text false now = (st, false) ∧
    (dispatchReply st tk href buyer text true now).2 = true ∧
    lookupA (dispatchReply st tk href buyer text true now).1.last_seen_bottom tk
      = some text ∧
    lookupA (dispatchReply st tk href buyer text true now).1.last_sent_by_us tk
      = some text := by
  refine ⟨rfl, rfl, ?_, ?_⟩ <;> simp [dispatchReply, lookupA_setAssoc_self]

/-- C5: an approval request with no UI action resolves through the
    `asyncio.wait_for` timeout (3600 s = one hour): the request terminates
    as `expired`, `ask_human_approval` returns `false`, nothing was queued,
    and the flush dispatches exactly the decline text. -/
theorem approval_timeout_dispatches_decline (a : Analysis) (loc av : String) :
    approval_timeout_seconds = 60 * 60 ∧
    (stepEvents [UIEvent.timeoutFire]
        ⟨ReqState.pendingReq, false, []⟩).reqState
      = ReqState.resolvedReq Outcome.expired ∧
    (stepEvents [UIEvent.timeoutFire]
        ⟨ReqState.pendingReq, false, []⟩).send_queue = [] ∧
    ask_human_approval_result Outcome.expired = false ∧
    flushSentTexts (extractDecision a loc av).yes_reply
        (extractDecision a loc av).no_reply Outcome.expired [] =
      [(extractDecision a loc av).no_reply] := by
  refine ⟨rfl, rfl, rfl, rfl, ?_⟩
  simp [flushSentTexts, flush_final_reply, ask_human_approval_result,
    extract_no_reply_ne_empty a loc av]

/-- C2: the flush force-upgrades `requires_approval` to `true` whenever the
    extracted category is `meetup_scheduling` or `meetup_confirmation`,
    regardless of the `requires_approval` value the adapter returned. -/
theorem meetup_categories_force_approval (a : Analysis) (loc av : String)
    (h : (extractDecision a loc av).category = "meetup_scheduling" ∨
         (extractDecision a loc av).category = "meetup_confirmation") :
    (extractDecision a loc av).requires_approval = true := by
  rw [extract_category_eq] at h
  simp only [extractDecision]
  rw [if_pos h]

/-- Witness for C2: a concrete analysis whose adapter-returned
    `requires_approval` is `false` is still routed to approval. -/
theorem meetup_categories_force_approval_witness :
    (extractDecision
        ⟨some "meetup_scheduling", some false, some "meetup", some "y",
          some "n", some false, some "", some ""⟩ "L" "A").requires_approval
      = true :=
  meetup_categories_force_approval _ "L" "A" (Or.inl (by decide))

/-- C1 (code bug evaluation): after the operator escalates to a custom
    reply, `handle_admin_text` queues the custom text and resolves the
    in-flight future as `True`; `flush_debounced_threads` maps that `True`
    to `final_reply = yes_reply` with no short-circuit, so the batch whose
    request resolved via the custom path dispatches the suggested accept
    text in addition to the custom text, not the custom text alone. -/
theorem custom_reply_also_dispatches_suggested :
    (stepEvents [UIEvent.customTap, UIEvent.adminText "I will confirm tonight"]
        ⟨ReqState.pendingReq, false, []⟩).reqState
      = ReqState.resolvedReq Outcome.customQueued ∧
    (stepEvents [UIEvent.customTap, UIEvent.adminText "I will confirm tonight"]
        ⟨ReqState.pendingReq, false, []⟩).send_queue
      = ["I will confirm tonight"] ∧
    ask_human_approval_result Outcome.customQueued = true ∧
    flushSentTexts "Yes, it is still available. What time works for you?"
        "Sorry, I cannot do that." Outcome.customQueued
        ["I will confirm tonight"] =
      ["Yes, it is still available. What time works for you?",
        "I will confirm tonight"] ∧
    flushSentTexts "Yes, it is still available. What time works for you?"
        "Sorry, I cannot do that." Outcome.customQueued
        ["I will confirm tonight"] ≠ ["I will confirm tonight"] := by
  refine ⟨?_, ?_, rfl, ?_, ?_⟩ <;> decide

theorem countMsg_zero_of_fresh (db : DB) (tk : String) (role : Role)
    (t : String) (h : hashExists db tk (hashMsg tk role t) = false) :
    countMsg db tk role t = 0 := by
  simp only [hashExists, List.any_eq_false] at h
  simp only [countMsg, List.length_eq_zero, List.filter_eq_nil_iff]
  exact h

/-- C3: inserting the same `(thread_key, role, text)` twice into a store
    not yet holding it stores exactly one row (appended once, counted
    once), `InsertMessage` returns `true` on the first call only, and —
    for any store — a text that strips to empty is rejected with `false`
    and no change. -/
theorem insert_message_idempotent (db : DB) (tk : String) (role : Role)
    (text : String) (n1 n2 : Nat)
    (hfresh : hashExists db tk (hashMsg tk role (pyStrip text)) = false)
    (hne : pyStrip text ≠ "") :
    (∀ (db2 : DB) (t2 : String) (m : Nat), pyStrip t2 = "" →
        db_insert_message db2 tk role t2 m = (db2, false)) ∧
    (db_insert_message db tk role text n1).2 = true ∧
    (db_insert_message (db_insert_message db tk role text n1).1
        tk role text n2).2 = false ∧
    (db_insert_message (db_insert_message db tk role text n1).1
        tk role text n2).1.rows =
      db.rows ++ [⟨tk, hashMsg tk role (pyStrip text), role, pyStrip text, n1⟩] ∧
    countMsg (db_insert_message (db_insert_message db tk role text n1).1
        tk role text n2).1 tk role (pyStrip text) = 1 := by
  have hstep1 : db_insert_message db tk role text n1 =
      (⟨db.rows ++ [⟨tk, hashMsg tk role (pyStrip text), role, pyStrip text, n1⟩]⟩,
        true) := by
    simp [db_insert_message, hne, hfresh]
  have hdup : hashExists
      ⟨db.rows ++ [⟨tk, hashMsg tk role (pyStrip text), role, pyStrip text, n1⟩]⟩
      tk (hashMsg tk role (pyStrip text)) = true := by
    simp [hashExists]
  have hstep2 : db_insert_message (db_insert_message db tk role text n1).1
      tk role text n2 =
      ((db_insert_message db tk role text n1).1, false) := by
    rw [hstep1]
    simp [db_insert_message, hne, hdup]
  refine ⟨?_, ?_, ?_, ?_, ?_⟩
  · intro db2 t2 m hempty
    simp [db_insert_message, hempty]
  · rw [hstep1]
  · rw [hstep2]
  · rw [hstep2, hstep1]
  · rw [hstep2, hstep1]
    simp only [countMsg, List.filter_append]
    rw [List.length_append]
    have h0 := countMsg_zero_of_fresh db tk role (pyStrip text) hfresh
    simp only [countMsg] at h0
    rw [h0]
    simp

/-- Witness for C3: both hypotheses and the inner whitespace-rejection
    hypothesis discharged at concrete inputs. -/
theorem insert_message_idempotent_witness :
    db_insert_message ⟨[]⟩ "t1" Role.buyer "   " 7 = (⟨[]⟩, false) ∧
    (db_insert_message ⟨[]⟩ "t1" Role.buyer " hi " 7).2 = true ∧
    (db_insert_message (db_insert_message ⟨[]⟩ "t1" Role.buyer " hi " 7).1
        "t1" Role.buyer " hi " 9).2 = false ∧
    countMsg (db_insert_message (db_insert_message ⟨[]⟩ "t1" Role.buyer " hi " 7).1
        "t1" Role.buyer " hi " 9).1 "t1" Role.buyer (pyStrip " hi ") = 1 := by
  have h := insert_message_idempotent ⟨[]⟩ "t1" Role.buyer " hi " 7 9
    (by decide) (by decide)
  exact ⟨h.1 ⟨[]⟩ "   " 7 (by decide), h.2.1, h.2.2.1, h.2.2.2.2⟩

theorem step_preserves_resolved (e : UIEvent) (s : ApprovalFlow) (o : Outcome)
    (h : s.reqState = ReqState.resolvedReq o) :
    (stepEvent e s).reqState = ReqState.resolvedReq o := by
  cases e <;> simp only [stepEvent] <;> rw [h] <;> (try split) <;> simp_all

theorem run_preserves_resolved (evs : List UIEvent) (s : ApprovalFlow)
    (o : Outcome) (h : s.reqState = ReqState.resolvedReq o) :
    (stepEvents evs s).reqState = ReqState.resolvedReq o := by
  induction evs generalizing s with
  | nil => exact h
  | cons e rest ih => exact ih (stepEvent e s) (step_preserves_resolved e s o h)

theorem timeout_step_resolved (s : ApprovalFlow) :
    ∃ o, (stepEvent UIEvent.timeoutFire s).reqState = ReqState.resolvedReq o := by
  cases hs : s.reqState with
  | pendingReq => exact ⟨Outcome.expired, by simp [stepEvent, hs]⟩
  | resolvedReq o => exact ⟨o, by simp [stepEvent, hs]⟩

theorem run_timeout_resolves (evs : List UIEvent) (s : ApprovalFlow)
    (h : UIEvent.timeoutFire ∈ evs) :
    ∃ o, (stepEvents evs s).reqState = ReqState.resolvedReq o := by
  induction evs generalizing s with
  | nil => cases h
  | cons e rest ih =>
      rcases List.mem_cons.mp h with he | hrest
      · obtain ⟨o, ho⟩ := timeout_step_resolved s
        rw [← he]
        exact ⟨o, run_preserves_resolved rest (stepEvent UIEvent.timeoutFire s) o ho⟩
      · exact ih (stepEvent e s) hrest

/-- C4: an approval request resolves exactly once.  A request already in a
    terminal state keeps that exact outcome across any further sequence of
    asynchronous events; each of the three UI taps is a complete no-op on a
    resolved request (future guarded by `not fut.done()`, meta already
    popped); and a pending request whose event stream contains the
    `wait_for` timeout firing necessarily reaches one of the four terminal
    outcomes. -/
theorem approval_request_resolves_exactly_once (o : Outcome) (cw : Bool)
    (q : List String) (evs : List UIEvent) (s : ApprovalFlow)
    (htm : UIEvent.timeoutFire ∈ evs) :
    (stepEvents evs ⟨ReqState.resolvedReq o, cw, q⟩).reqState
      = ReqState.resolvedReq o ∧
    stepEvent UIEvent.approveTap ⟨ReqState.resolvedReq o, cw, q⟩
      = ⟨ReqState.resolvedReq o, cw, q⟩ ∧
    stepEvent UIEvent.declineTap ⟨ReqState.resolvedReq o, cw, q⟩
      = ⟨ReqState.resolvedReq o, cw, q⟩ ∧
    stepEvent UIEvent.customTap ⟨ReqState.resolvedReq o, cw, q⟩
      = ⟨ReqState.resolvedReq o, cw, q⟩ ∧
    (∃ o2, (stepEvents evs s).reqState = ReqState.resolvedReq o2) := by
  refine ⟨run_preserves_resolved evs _ o rfl, rfl, rfl, rfl,
    run_timeout_resolves evs s htm⟩

/-- Witness for C4 at a concrete resolved request, a concrete pending
    request and the one-event stream `[timeoutFire]`. -/
theorem approval_request_resolves_exactly_once_witness :
    (stepEvents [UIEvent.timeoutFire]
        ⟨ReqState.resolvedReq Outcome.approved, false, []⟩).reqState
      = ReqState.resolvedReq Outcome.approved ∧
    stepEvent UIEvent.approveTap ⟨ReqState.resolvedReq Outcome.approved, false, []⟩
      = ⟨ReqState.resolvedReq Outcome.approved, false, []⟩ ∧
    stepEvent UIEvent.declineTap ⟨ReqState.resolvedReq Outcome.approved, false, []⟩
      = ⟨ReqState.resolvedReq Outcome.approved, false, []⟩ ∧
    stepEvent UIEvent.customTap ⟨ReqState.resolvedReq Outcome.approved, false, []⟩
      = ⟨ReqState.resolvedReq Outcome.approved, false, []⟩ ∧
    (∃ o2, (stepEvents [UIEvent.timeoutFire]
        ⟨ReqState.pendingReq, false, []⟩).reqState = ReqState.resolvedReq o2) :=
  approval_request_resolves_exactly_once Outcome.approved false [] [UIEvent.timeoutFire]
    ⟨ReqState.pendingReq, false, []⟩ (by decide)

theorem notify_refresh_eq (pending : List (String × PendingWindow))
    (tk : String) (href : Option String) (buyer : String) (loopNow tsNow : Nat)
    (w : PendingWindow) (h : lookupA pending tk = some w) :
    lookupA (notify pending tk href buyer loopNow tsNow) tk =
      some { since_ts := w.since_ts
             last_update := loopNow
             href := pyOrOpt href w.href
             buyer_name := if buyer = "" then w.buyer_name else buyer } := by
  simp [notify, h, lookupA_setAssoc_self]

theorem notifyMany_preserves_since_ts (tk : String) :
    ∀ (updates : List NotifyArgs) (pending : List (String × PendingWindow))
      (w : PendingWindow), lookupA pending tk = some w →
      ∃ w2, lookupA (notifyMany pending tk updates) tk = some w2 ∧
        w2.since_ts = w.since_ts
  | [], pending, w, h => ⟨w, h, rfl⟩
  | u :: rest, pending, w, h => by
      obtain ⟨w2, h2, hs⟩ := notifyMany_preserves_since_ts tk rest
        (notify pending tk u.href u.buyer u.loopNow u.tsNow)
        { since_ts := w.since_ts
          last_update := u.loopNow
          href := pyOrOpt u.href w.href
          buyer_name := if u.buyer = "" then w.buyer_name else u.buyer }
        (notify_refresh_eq pending tk u.href u.buyer u.loopNow u.tsNow w h)
      exact ⟨w2, h2, hs⟩

/-- C8: a `Notify` on a thread whose debounce window is already open leaves
    `since_ts` exactly as the window was opened with, sets `last_update` to
    the new monotonic time, and refreshes `href` / `buyer_name` only with
    truthy new values; consequently any sequence of further `Notify` calls
    on the open window leaves `since_ts` at its original value. -/
theorem notify_refresh_preserves_since_ts
    (pending : List (String × PendingWindow)) (tk : String)
    (href : Option String) (buyer : String) (loopNow tsNow : Nat)
    (w : PendingWindow) (h : lookupA pending tk = some w) :
    lookupA (notify pending tk href buyer loopNow tsNow) tk =
      some { since_ts := w.since_ts
             last_update := loopNow
             href := pyOrOpt href w.href
             buyer_name := if buyer = "" then w.buyer_name else buyer } ∧
    (∀ updates : List NotifyArgs,
      ∃ w2, lookupA (notifyMany pending tk updates) tk = some w2 ∧
        w2.since_ts = w.since_ts) :=
  ⟨notify_refresh_eq pending tk href buyer loopNow tsNow w h,
    fun updates => notifyMany_preserves_since_ts tk updates pending w h⟩

/-- Witness for C8: refreshing an open window with an empty href and buyer
    name keeps `since_ts`, `href` and `buyer_name` and moves only
    `last_update`, and iterated refreshes keep `since_ts` at 100. -/
theorem notify_refresh_preserves_since_ts_witness :
    lookupA (notify [("t1", ⟨100, 5, some "/t/9", "Alice"⟩)]
        "t1" none "" 42 777) "t1" = some ⟨100, 42, some "/t/9", "Alice"⟩ ∧
    (∀ updates : List NotifyArgs,
      ∃ w2, lookupA (notifyMany [("t1", ⟨100, 5, some "/t/9", "Alice"⟩)]
          "t1" updates) "t1" = some w2 ∧ w2.since_ts = 100) := by
  have h := notify_refresh_preserves_since_ts
    [("t1", ⟨100, 5, some "/t/9", "Alice"⟩)] "t1" none "" 42 777
    ⟨100, 5, some "/t/9", "Alice"⟩ (by decide)
  exact ⟨h.1.trans (by decide), h.2⟩

theorem insert_noop_iff (db : DB) (tk : String) (role : Role) (text : String)
    (now : Nat) :
    (db_insert_message db tk role text now).1 = db ↔
      (pyStrip text = "" ∨
        hashExists db tk (hashMsg tk role (pyStrip text)) = true) := by
  by_cases h1 : pyStrip text = ""
  · simp [db_insert_message, h1]
  · by_cases h2 : hashExists db tk (hashMsg tk role (pyStrip text)) = true
    · simp [db_insert_message, h1, h2]
    · have h2f : hashExists db tk (hashMsg tk role (pyStrip text)) = false := by
        simp only [Bool.not_eq_true] at h2
        exact h2
      have hval : (db_insert_message db tk role text now).1
          = ⟨db.rows ++
              [⟨tk, hashMsg tk role (pyStrip text), role, pyStrip text, now⟩]⟩ := by
        simp [db_insert_message, h1, h2f]
      rw [hval]
      constructor
      · intro heq
        exfalso
        have hlen := congrArg (fun d => d.rows.length) heq
        simp at hlen
      · intro hor
        rcases hor with hc | hc
        · exact absurd hc h1
        · exact absurd hc h2

/-- C9 (counterexample): a tick that re-observes a bottom text equal to the
    cached `last_seen_bottom` can still grow the stored message rows,
    because the insert runs before the jitter lock: here the unchanged
    bottom "hi", first observed as `incoming`, is re-observed as
    `outgoing`, and a second row (role seller) is stored for the thread. -/
theorem unchanged_bottom_still_inserts_row :
    lookupA (processObservation emptyBot "t1" (some "/t/1") "Alice"
        (some ("hi", Side.incoming)) 0 100 100).last_seen_bottom "t1"
      = some "hi" ∧
    (processObservation (processObservation emptyBot "t1" (some "/t/1") "Alice"
          (some ("hi", Side.incoming)) 0 100 100) "t1" (some "/t/1") "Alice"
        (some ("hi", Side.outgoing)) 5 105 105).db.rows.length =
      (processObservation emptyBot "t1" (some "/t/1") "Alice"
          (some ("hi", Side.incoming)) 0 100 100).db.rows.length + 1 := by
  constructor <;> decide

/-- C9 (amended): on a tick whose observed bottom text equals the cached
    `last_seen_bottom`, no debounce window is opened or refreshed and none
    of the three caches changes; the stored message rows are unchanged
    exactly when the attempted insert is a no-op — i.e. the side is
    `unknown`, the stripped text is empty, or a row with the observed
    side's role and that text is already stored (the insert runs before
    the jitter lock, so an unchanged bottom re-observed under a different
    side still inserts a new row). -/
theorem unchanged_bottom_suppression (st : BotState) (tk : String)
    (href : Option String) (buyer : String) (bottom : String) (side : Side)
    (loopNow tsNow now : Nat)
    (h : lookupA st.last_seen_bottom tk = some bottom) :
    (processObservation st tk href buyer (some (bottom, side))
        loopNow tsNow now).pending = st.pending ∧
    (processObservation st tk href buyer (some (bottom, side))
        loopNow tsNow now).last_seen_bottom = st.last_seen_bottom ∧
    (processObservation st tk href buyer (some (bottom, side))
        loopNow tsNow now).last_seen_incoming = st.last_seen_incoming ∧
    (processObservation st tk href buyer (some (bottom, side))
        loopNow tsNow now).last_sent_by_us = st.last_sent_by_us ∧
    ((processObservation st tk href buyer (some (bottom, side))
        loopNow tsNow now).db = st.db ↔
      insertTakesNoEffect st.db tk side bottom = true) := by
  by_cases hb : bottom = ""
  · subst hb
    cases side <;>
      simp [processObservation, insertTakesNoEffect, pyStrip]
  · cases side <;>
      simp [processObservation, hb, h, insertTakesNoEffect,
        insert_noop_iff, Bool.or_eq_true]

/-- Witness for C9 (amended theorem) at a concrete state whose cached
    bottom matches the observation and whose row is already stored. -/
theorem unchanged_bottom_suppression_witness :
    (processObservation
        ⟨⟨[⟨"t1", "t1|buyer|hi", Role.buyer, "hi", 100⟩]⟩, [], [],
          [("t1", "hi")], [("t1", "hi")], []⟩ "t1" (some "/t/1") "Alice"
        (some ("hi", Side.incoming)) 5 105 105).pending = [] ∧
    (processObservation
        ⟨⟨[⟨"t1", "t1|buyer|hi", Role.buyer, "hi", 100⟩]⟩, [], [],
          [("t1", "hi")], [("t1", "hi")], []⟩ "t1" (some "/t/1") "Alice"
        (some ("hi", Side.incoming)) 5 105 105).last_seen_bottom
      = [("t1", "hi")] ∧
    (processObservation
        ⟨⟨[⟨"t1", "t1|buyer|hi", Role.buyer, "hi", 100⟩]⟩, [], [],
          [("t1", "hi")], [("t1", "hi")], []⟩ "t1" (some "/t/1") "Alice"
        (some ("hi", Side.incoming)) 5 105 105).last_seen_incoming
      = [("t1", "hi")] ∧
    (processObservation
        ⟨⟨[⟨"t1", "t1|buyer|hi", Role.buyer, "hi", 100⟩]⟩, [], [],
          [("t1", "hi")], [("t1", "hi")], []⟩ "t1" (some "/t/1") "Alice"
        (some ("hi", Side.incoming)) 5 105 105).last_sent_by_us = [] ∧
    ((processObservation
        ⟨⟨[⟨"t1", "t1|buyer|hi", Role.buyer, "hi", 100⟩]⟩, [], [],
          [("t1", "hi")], [("t1", "hi")], []⟩ "t1" (some "/t/1") "Alice"
        (some ("hi", Side.incoming)) 5 105 105).db
      = ⟨[⟨"t1", "t1|buyer|hi", Role.buyer, "hi", 100⟩]⟩ ↔
      insertTakesNoEffect ⟨[⟨"t1", "t1|buyer|hi", Role.buyer, "hi", 100⟩]⟩
        "t1" Side.incoming "hi" = true) :=
  unchanged_bottom_suppression
    ⟨⟨[⟨"t1", "t1|buyer|hi", Role.buyer, "hi", 100⟩]⟩, [], [],
      [("t1", "hi")], [("t1", "hi")], []⟩ "t1" (some "/t/1") "Alice"
    "hi" Side.incoming 5 105 105 (by decide)

/-- C10: request ids are the event-loop clock truncated to whole
    milliseconds, so two registrations (from an empty registry, futures
    indexed 0 and 1) get distinct ids exactly when their creation times
    fall in distinct milliseconds; the table always binds the second id to
    the second future, and a UI action on the first id resolves the first
    future when the milliseconds differ but — on a collision — resolves
    only the most recently created future, leaving the first pending (so it
    can only complete via its timeout). -/
theorem request_id_millisecond_collision (t1 t2 : Nat) (ap : Bool) :
    (request_id_ms t1 = request_id_ms t2 ↔ t1 / 1000 = t2 / 1000) ∧
    lookupA (ask_register (ask_register ⟨[], []⟩ t1).1 t2).1.table
        (request_id_ms t2) = some 1 ∧
    (handle_approval_tap (ask_register (ask_register ⟨[], []⟩ t1).1 t2).1
        (request_id_ms t1) ap).futures =
      (if t1 / 1000 = t2 / 1000
       then [FutState.fpending, FutState.fresolved ap]
       else [FutState.fresolved ap, FutState.fpending]) ∧
    (handle_approval_tap (ask_register (ask_register ⟨[], []⟩ t1).1 t2).1
        (request_id_ms t2) ap).futures =
      [FutState.fpending, FutState.fresolved ap] := by
  by_cases hms : t1 / 1000 = t2 / 1000
  · simp_all [request_id_ms, ask_register, handle_approval_tap,
      setAssoc, lookupA]
  · simp_all [request_id_ms, ask_register, handle_approval_tap,
      setAssoc, lookupA, Ne.symm hms]

end MarketplaceBot
